import Mathlib

/-!
Verification of the trail-condition and soil-moisture forecasting engine
(`src/main.py` of castelli-weather).  Python floats are modelled as `ℚ`
(the code only adds, subtracts, compares and divides small decimal
literals), Python ints as `ℤ`/`ℕ`, `None`-able values as `Option`, and a
function that can raise `IndexError` on short input arrays returns
`Option`.  `datetime` values are modelled structurally: a calendar day
ordinal, an hour and a minute, compared lexicographically, which is all
the source uses of them (`fromisoformat`, `.date()`, `.hour`, `<=`,
`timedelta(days=k)`).
-/

namespace CastelliWeather

/-- A timestamp: calendar day ordinal, hour, minute. -/
structure Timestamp where
  day : ℤ
  hour : ℕ
  minute : ℕ
deriving DecidableEq

/-- Python `datetime` comparison `a <= b`, lexicographic on (day, hour, minute). -/
def Timestamp.leb (a b : Timestamp) : Bool :=
  if a.day ≠ b.day then decide (a.day < b.day)
  else if a.hour ≠ b.hour then decide (a.hour < b.hour)
  else decide (a.minute ≤ b.minute)

/-- The parallel hourly arrays consumed by the engine (`hourly_data` in the source). -/
structure HourlyData where
  time : List Timestamp
  temperature_2m : List ℚ
  precipitation : List ℚ
  windspeed_10m : List ℚ
  windgusts_10m : List ℚ
  weather_code : List ℤ
deriving DecidableEq

/-- Result record of `calculate_trail_conditions` (display-only fields omitted). -/
structure TrailConditions where
  score : ℤ
  rating : String
  rain_24h : ℚ
  current_wind : ℚ
  current_gust : ℚ
deriving DecidableEq

/-- The sequential score computation of `calculate_trail_conditions`
(src/main.py lines 149-176): start at 100 and subtract the rain, wind,
gust and temperature deductions in order. -/
def trailScore (rain_24h current_temp current_wind current_gust : ℚ) : ℤ :=
  let score : ℤ := 100
  let score : ℤ := if rain_24h > 15 then score - 40
                   else if rain_24h > 5 then score - 20 else score
  let score : ℤ := if current_wind > 30 then score - 30
                   else if current_wind > 20 then score - 15 else score
  let score : ℤ := if current_gust > 40 then score - 20
                   else if current_gust > 30 then score - 10 else score
  if current_temp < 0 then score - 30
  else if current_temp < 3 then score - 15 else score

/-- The rating bands of `calculate_trail_conditions`
(src/main.py lines 178-183). -/
def trailRating (score : ℤ) : String :=
  if score ≥ 80 then "excellent" else if score ≥ 60 then "good" else "poor"

/-- `calculate_trail_conditions` (src/main.py lines 142-189).  Indexing
`[0]` into an empty array raises `IndexError` in Python; this is modelled
by returning `none`. -/
def calculate_trail_conditions (hd : HourlyData) : Option TrailConditions :=
  let rain_24h : ℚ :=
    if 24 ≤ hd.precipitation.length then (hd.precipitation.take 24).sum else 0
  match hd.temperature_2m.head?, hd.windspeed_10m.head?, hd.windgusts_10m.head? with
  | some current_temp, some current_wind, some current_gust =>
    let score := trailScore rain_24h current_temp current_wind current_gust
    some ⟨score, trailRating score, rain_24h, current_wind, current_gust⟩
  | _, _, _ => none

/-- Daily history object (`history_daily["daily"]` in the source); only the
field the soil-dryness computations read. -/
structure DailyHistory where
  precipitation_sum : List (Option ℚ)
deriving DecidableEq

/-- Result record of `calculate_soil_dryness` (chart/label fields omitted;
`rain_7d` is kept unrounded — the source rounds it to one decimal for
display only, after the rating has been computed from the raw sum). -/
structure SoilDryness where
  dry_days : ℕ
  rain_7d : ℚ
  rating : String
deriving DecidableEq

/-- The loop `for p in reversed(precip): if p is None or p < 2.0: dry_days += 1 else: break`,
expressed on the already-reversed list. -/
def dryRun : List (Option ℚ) → ℕ
  | [] => 0
  | none :: rest => dryRun rest + 1
  | some v :: rest => if v < 2.0 then dryRun rest + 1 else 0

/-- Python `sum(p for p in l if p is not None)`. -/
def sumSome (l : List (Option ℚ)) : ℚ := (l.filterMap id).sum

/-- `calculate_soil_dryness` (src/main.py lines 374-436), 7-day variant. -/
def calculate_soil_dryness (h : DailyHistory) : Option SoilDryness :=
  let precip := h.precipitation_sum
  if precip = [] then none
  else
    let dry_days := dryRun precip.reverse
    let rain_7d := sumSome (precip.drop (precip.length - 7))
    let rating : String :=
      if rain_7d < 5 then "dry"
      else if rain_7d < 15 then "damp"
      else if rain_7d < 35 then "wet"
      else "saturated"
    some ⟨dry_days, rain_7d, rating⟩

/-- `calculate_soil_dryness_5d` (src/main.py lines 439-491): the 5-day
variant, `precip[-5:]` and cut points 4/12/28. -/
def calculate_soil_dryness_5d (h : DailyHistory) : Option SoilDryness :=
  let precip := h.precipitation_sum
  if precip = [] then none
  else
    let dry_days := dryRun precip.reverse
    let rain_5d := sumSome (precip.drop (precip.length - 5))
    let rating : String :=
      if rain_5d < 4 then "dry"
      else if rain_5d < 12 then "damp"
      else if rain_5d < 28 then "wet"
      else "saturated"
    some ⟨dry_days, rain_5d, rating⟩

/-- Result record of `gonogo` (color field omitted). -/
structure GoNoGo where
  status : String
  label : String
deriving DecidableEq

/-- `gonogo` (src/main.py lines 933-949).  The `dry_days` argument is part
of the Python signature but unused by the body. -/
def gonogo (smi rain_forecast_mm : ℚ) (dry_days : ℤ) : GoNoGo :=
  if smi > 1.2 ∨ rain_forecast_mm > 5 then ⟨"nogo", "Saturo"⟩
  else if smi > 0.8 ∨ rain_forecast_mm > 2 then ⟨"caution", "Fangoso"⟩
  else if smi > 0.5 then ⟨"caution", "Umido"⟩
  else ⟨"go", "Praticabile"⟩

/-- The `while current > 0.5 and days < 30` loop of `estimate_recovery_days`,
written with explicit fuel; called with fuel 30 it performs exactly the
Python iterations (the fuel only runs out together with the `days < 30`
guard). -/
def recoveryLoop (daily_recovery : ℚ) : ℕ → ℚ → ℕ → ℕ
  | 0, _, days => days
  | fuel + 1, current, days =>
    if 0.5 < current ∧ days < 30 then
      recoveryLoop daily_recovery fuel (current - daily_recovery) (days + 1)
    else days

/-- `estimate_recovery_days` (src/main.py lines 916-930). -/
def estimate_recovery_days (smi drainage_rate : ℚ) : ℕ :=
  if smi ≤ 0.5 then 0
  else recoveryLoop (drainage_rate * 0.15) 30 smi 0

/-- One day of the forward SMI projection loop body shared (textually) by
`calculate_zone_matrix` (src/main.py lines 997-1000) and
`project_soil_forecast_smi` (lines 877-880). -/
def smiDayUpdate (drainage_rate smi prev_rain : ℚ) : ℚ :=
  if prev_rain < 2 then max 0 (smi - drainage_rate * 0.15)
  else if prev_rain > 10 then min 2.0 (smi + 0.2)
  else smi

/-- The projected SMI computed inside `calculate_zone_matrix`
(src/main.py lines 992-1000): restart from `smi_now` and replay the days
`d ∈ [0, offset)`, reading each day's aggregated forecast rain from
`daily_forecast_precip.get(day, 0)` (modelled as the function `rain`). -/
def zoneMatrixSmiProj (smi_now drainage_rate : ℚ) (rain : ℕ → ℚ) (offset : ℕ) : ℚ :=
  (List.range offset).foldl
    (fun smi_proj d =>
      if rain d < 2 then max 0 (smi_proj - drainage_rate * 0.15)
      else if rain d > 10 then min 2.0 (smi_proj + 0.2)
      else smi_proj)
    smi_now

/-- The projected SMI computed inside `project_soil_forecast_smi`
(src/main.py lines 869-880): the same restart-and-replay loop. -/
def projectSoilForecastSmiProj (smi_now drainage_rate : ℚ) (rain : ℕ → ℚ) (offset : ℕ) : ℚ :=
  (List.range offset).foldl
    (fun smi_proj d =>
      if rain d < 2 then max 0 (smi_proj - drainage_rate * 0.15)
      else if rain d > 10 then min 2.0 (smi_proj + 0.2)
      else smi_proj)
    smi_now

/-- Modelled from the spec (§4.4): the day-offset SMI recurrence as the
specification states it — starting from the current `smi`, each replayed
day with forecast rain < 2mm drains `max(0, smi − drainage_rate·0.15)`,
each day with rain > 10mm wets `min(2.0, smi + 0.2)`, otherwise the value
is unchanged; offset `d+1` replays day `d` on top of offset `d`. -/
def specProjectedSMI (smi drainage_rate : ℚ) (rain : ℕ → ℚ) : ℕ → ℚ
  | 0 => smi
  | d + 1 => smiDayUpdate drainage_rate (specProjectedSMI smi drainage_rate rain d) (rain d)

/-- One eligible hour collected into `hours_by_day` by
`find_best_riding_windows` (src/main.py lines 263-268). -/
structure HourEntry where
  time : Timestamp
  hour : ℕ
  score : ℤ
  temp : ℚ
  wind : ℚ
  precip : ℚ
deriving DecidableEq

/-- The per-hour score of `find_best_riding_windows`
(src/main.py lines 257-261), read off the parallel arrays at index `i`. -/
def hourScoreAt (hd : HourlyData) (i : ℕ) : ℤ :=
  let score : ℤ := 100
  let score : ℤ := if hd.precipitation.getD i 0 > 0.5 then score - 50 else score
  let score : ℤ := if hd.windspeed_10m.getD i 0 > 25 then score - 30 else score
  let score : ℤ := if hd.temperature_2m.getD i 0 < 3 then score - 20 else score
  if hd.weather_code.getD i 0 ∈ [95, 96, 99] then score - 60 else score

/-- The filtering loop of `find_best_riding_windows`
(src/main.py lines 249-268): drop hours `≤ now` and hours outside
`[07:00, 20:00)`, keep the rest in input order with their per-hour data. -/
def buildEntries (now : Timestamp) (hd : HourlyData) : List HourEntry :=
  (List.range hd.time.length).filterMap fun i =>
    match hd.time[i]? with
    | none => none
    | some t =>
      if t.leb now || decide (t.hour < 7) || decide (20 ≤ t.hour) then none
      else some
        { time := t, hour := t.hour, score := hourScoreAt hd i,
          temp := hd.temperature_2m.getD i 0,
          wind := hd.windspeed_10m.getD i 0,
          precip := hd.precipitation.getD i 0 }

/-- The best-window candidate record built at src/main.py lines 282-288. -/
structure BestWindow where
  start : Timestamp
  stop : Timestamp
  duration : ℕ
  score : ℚ
  temp : ℚ
  wind : ℚ
  precip : ℚ
deriving DecidableEq

/-- Python `max(...)` over the (nonempty) precipitation values of a window. -/
def maxPrecip : List ℚ → ℚ
  | [] => 0
  | x :: xs => xs.foldl max x

/-- Build the candidate record for the window `w` of size `ws`
(src/main.py lines 282-288): first/last timestamps, mean temperature and
wind, peak precipitation, mean score. -/
def mkBestWindow (w : List HourEntry) (ws : ℕ) : BestWindow :=
  { start := ((w.head?).map (·.time)).getD ⟨0, 0, 0⟩,
    stop := ((w.getLast?).map (·.time)).getD ⟨0, 0, 0⟩,
    duration := ws,
    score := ((w.map (·.score)).sum : ℤ) / (ws : ℚ),
    temp := (w.map (·.temp)).sum / (ws : ℚ),
    wind := (w.map (·.wind)).sum / (ws : ℚ),
    precip := maxPrecip (w.map (·.precip)) }

/-- The window of size `c.1` starting at offset `c.2` in a day's hours. -/
def windowAt (hours : List HourEntry) (c : ℕ × ℕ) : List HourEntry :=
  (hours.drop c.2).take c.1

/-- The arithmetic mean per-hour score of the candidate `c`
(`avg_score` at src/main.py line 279). -/
def avgScoreAt (hours : List HourEntry) (c : ℕ × ℕ) : ℚ :=
  (((windowAt hours c).map (·.score)).sum : ℤ) / (c.1 : ℚ)

/-- One step of the best-window search (src/main.py lines 280-288): a
candidate replaces the incumbent only when its mean score is strictly
greater than the best mean seen so far. -/
def searchStep (hours : List HourEntry) (acc : Option BestWindow × ℚ) (c : ℕ × ℕ) :
    Option BestWindow × ℚ :=
  if avgScoreAt hours c > acc.2 then (some (mkBestWindow (windowAt hours c) c.1), avgScoreAt hours c)
  else acc

/-- The candidate enumeration order of the nested loops at src/main.py
lines 276-277: window sizes 6, 5, 4 in that order and, within each size,
start offsets `range(len(hours) - ws + 1)` ascending (empty when the day
has fewer than `ws` hours, as in Python where the range is then empty). -/
def searchCands (n : ℕ) : List (ℕ × ℕ) :=
  [6, 5, 4].flatMap fun ws => (List.range (n + 1 - ws)).map fun s => (ws, s)

/-- The whole best-window scan for one day's hours (src/main.py lines
274-288), starting from `best_window = None`, `best_avg = 0`. -/
def searchDay (hours : List HourEntry) : Option BestWindow × ℚ :=
  (searchCands hours.length).foldl (searchStep hours) (none, 0)

/-- Day label of an emitted window (src/main.py lines 295-303); the
localized `"%a %d %b"` formatting of the third case is abstracted to the
day ordinal it formats. -/
inductive DayLabel where
  | oggi : DayLabel
  | domani : DayLabel
  | altro : ℤ → DayLabel
deriving DecidableEq

/-- One emitted riding window (src/main.py lines 305-315); the `"%d %b"`
date string is abstracted to the day ordinal it formats, `start_time` and
`end_time` keep the underlying timestamps. -/
structure DailyWindow where
  day : DayLabel
  date : ℤ
  start_time : Timestamp
  end_time : Timestamp
  duration : ℕ
  rating : String
  rating_icon : String
  temp : ℚ
  wind : ℚ
  precip : ℚ
  score : ℚ
deriving DecidableEq

/-- Sorted distinct day keys: `sorted(hours_by_day.items())` iterates the
per-day groups in ascending date order. -/
def sortedDayKeys (entries : List HourEntry) : List ℤ :=
  ((entries.map (·.time.day)).dedup).insertionSort (· ≤ ·)

/-- `find_best_riding_windows` (src/main.py lines 245-317).  The source
reads `now = datetime.now()` from the system clock at line 246; the clock
reading is passed here as the explicit argument `now`. -/
def find_best_riding_windows (now : Timestamp) (hd : HourlyData) : List DailyWindow :=
  let entries := buildEntries now hd
  let days := (sortedDayKeys entries).take 3
  days.filterMap fun day =>
    let hours := entries.filter fun h => decide (h.time.day = day)
    if hours.length < 4 then none
    else
      match searchDay hours with
      | (none, _) => none
      | (some w, _) =>
        if w.score < 50 then none
        else
          let rating : String := if w.score ≥ 80 then "excellent"
                                 else if w.score ≥ 60 then "good" else "poor"
          let rating_icon : String := if rating = "excellent" then "🟢"
                                      else if rating = "good" then "🟡" else "🔴"
          let label : DayLabel := if day = now.day then .oggi
                                  else if day = now.day + 1 then .domani else .altro day
          some ⟨label, day, w.start, w.stop, w.duration, rating, rating_icon,
                w.temp, w.wind, w.precip, w.score⟩

/-- `daily_forecast_precip.get(day, 0)`: total forecast precipitation of a
calendar day, aggregated from the hourly arrays (src/main.py lines
604-613); an absent day yields 0, matching `dict.get(day, 0)`. -/
def dailyForecastPrecip (hd : HourlyData) (day : ℤ) : ℚ :=
  ((List.range hd.time.length).map fun i =>
    match hd.time[i]? with
    | some t => if t.day = day then hd.precipitation.getD i 0 else 0
    | none => 0).sum

/-- `LEVELS.index(rating)` for `LEVELS = ["saturated", "wet", "damp", "dry"]`. -/
def levelIndex (rating : String) : ℕ :=
  if rating = "saturated" then 0
  else if rating = "wet" then 1
  else if rating = "damp" then 2
  else 3

/-- `LEVELS[i]`. -/
def levelName (i : ℕ) : String :=
  if i = 0 then "saturated"
  else if i = 1 then "wet"
  else if i = 2 then "damp"
  else "dry"

/-- The recovery `while` loop of `adjust_windows_for_soil` (src/main.py
lines 635-640): walk the forecast days strictly between tomorrow and the
window's date, gaining one level per day with < 2mm, stopping once the
level index reaches the last level (`dry`). -/
def soilProgress (levelIdx : ℕ) : List ℚ → ℕ
  | [] => levelIdx
  | p :: rest =>
    if levelIdx < 3 then
      soilProgress (if p < 2.0 then levelIdx + 1 else levelIdx) rest
    else levelIdx

/-- The per-day rating cap of `adjust_windows_for_soil` (src/main.py lines
643-655), applied to a window under the day's effective soil rating. -/
def applyLevelCap (effective_rating : String) (w : DailyWindow) : DailyWindow :=
  if effective_rating = "saturated" then
    { w with rating := "poor", rating_icon := "🔴" }
  else if effective_rating = "wet" then
    { w with rating := "medium", rating_icon := "🟠" }
  else if effective_rating = "damp" then
    if w.rating = "excellent" then { w with rating := "good", rating_icon := "🟡" } else w
  else w

/-- `adjust_windows_for_soil` (src/main.py lines 579-658).  `now` stands
for the `datetime.now()` readings inside the function; the `"%d %b"`
window-date string parsed back at line 627 is abstracted to the window's
day ordinal (the parse of a generated date string succeeds). -/
def adjust_windows_for_soil (now : Timestamp) (windows : List DailyWindow)
    (soil_dryness : Option SoilDryness) (hourly_data : Option HourlyData) : List DailyWindow :=
  match soil_dryness with
  | none => windows
  | some soil =>
    if windows = [] then windows
    else if ¬(soil.rating = "saturated" ∨ soil.rating = "wet") then windows
    else
      let hasForecast : Bool :=
        match hourly_data with
        | none => false
        | some hd => decide (hd.time ≠ [])
      windows.enum.map fun iw =>
        let idx := iw.1
        let w := iw.2
        let effective_rating :=
          if 0 < idx ∧ hasForecast = true then
            let window_date := w.date
            let checkDays :=
              (List.range (window_date - (now.day + 1)).toNat).map fun k =>
                now.day + 1 + (k : ℤ)
            let precips := checkDays.map fun d =>
              match hourly_data with
              | some hd => dailyForecastPrecip hd d
              | none => 0
            levelName (soilProgress (levelIndex soil.rating) precips)
          else soil.rating
        applyLevelCap effective_rating w



def hd0 : HourlyData :=
  { time := [⟨0,6,0⟩, ⟨0,9,0⟩, ⟨0,10,0⟩, ⟨0,11,0⟩, ⟨0,12,0⟩, ⟨0,13,0⟩, ⟨0,14,0⟩, ⟨0,15,0⟩, ⟨0,16,0⟩, ⟨0,20,0⟩],
    temperature_2m := [10,10,10,10,10,10,10,10,10,10],
    precipitation := [1,1,1,0,0,0,0,0,0,1],
    windspeed_10m := [0,0,0,0,0,0,0,0,0,0],
    windgusts_10m := [0,0,0,0,0,0,0,0,0,0],
    weather_code := [0,0,0,0,0,0,0,0,0,0] }

def w0 : DailyWindow :=
  { day := .oggi, date := 0, start_time := ⟨0,11,0⟩, end_time := ⟨0,16,0⟩,
    duration := 6, rating := "excellent", rating_icon := "🟢",
    temp := 10, wind := 0, precip := 0, score := 100 }

def entry (d : ℤ) (h : ℕ) (sc : ℤ) (pr : ℚ) : HourEntry :=
  { time := ⟨d, h, 0⟩, hour := h, score := sc, temp := 10, wind := 0, precip := pr }

/-- The day's predicate deciding a "dry" history entry in the `dry_days`
loop (src/main.py line 395): `p is None or p < 2.0`. -/
def isDryDay : Option ℚ → Bool
  | none => true
  | some v => decide (v < 2.0)

/-- Modelled from the spec (§4.1, claim C4): the rain penalty as an
independent amount subtracted from 100. -/
def specRainPenalty (rain_24h : ℚ) : ℤ :=
  if rain_24h > 15 then 40 else if rain_24h > 5 then 20 else 0

/-- Modelled from the spec (§4.1, claim C4): the wind penalty. -/
def specWindPenalty (wind : ℚ) : ℤ :=
  if wind > 30 then 30 else if wind > 20 then 15 else 0

/-- Modelled from the spec (§4.1, claim C4): the gust penalty. -/
def specGustPenalty (gust : ℚ) : ℤ :=
  if gust > 40 then 20 else if gust > 30 then 10 else 0

/-- Modelled from the spec (§4.1, claim C4): the temperature penalty. -/
def specTempPenalty (temp : ℚ) : ℤ :=
  if temp < 0 then 30 else if temp < 3 then 15 else 0

/-- Modelled from the spec (§4.1, claim C4): the 24-hour rain sum, with
the 0 default when fewer than 24 precipitation samples exist. -/
def specRain24 (hd : HourlyData) : ℚ :=
  if 24 ≤ hd.precipitation.length then (hd.precipitation.take 24).sum else 0

/-- A series with heavy 24h rain, strong wind and gusts and freezing
temperature: every penalty fires at its maximum. -/
def hdNeg : HourlyData :=
  { time := [], temperature_2m := [-5], precipitation := List.replicate 24 1,
    windspeed_10m := [35], windgusts_10m := [45], weather_code := [] }

/-! ## Theorems -/

/-- Claim C2: `gonogo` returns nogo ("Saturo") iff `smi > 1.2` or
`rain_forecast_mm > 5`, that check being evaluated first; otherwise
caution ("Fangoso") iff `smi > 0.8` or `rain > 2`; otherwise caution
("Umido") iff `smi > 0.5`; otherwise go ("Praticabile") — and the three
concrete instances of the claim. -/
theorem C2_gonogo_thresholds :
    (∀ (smi rain : ℚ) (dd : ℤ),
      (gonogo smi rain dd = ⟨"nogo", "Saturo"⟩ ↔ smi > 1.2 ∨ rain > 5) ∧
      (gonogo smi rain dd = ⟨"caution", "Fangoso"⟩ ↔
        ¬(smi > 1.2 ∨ rain > 5) ∧ (smi > 0.8 ∨ rain > 2)) ∧
      (gonogo smi rain dd = ⟨"caution", "Umido"⟩ ↔
        ¬(smi > 1.2 ∨ rain > 5) ∧ ¬(smi > 0.8 ∨ rain > 2) ∧ smi > 0.5) ∧
      (gonogo smi rain dd = ⟨"go", "Praticabile"⟩ ↔
        ¬(smi > 1.2 ∨ rain > 5) ∧ ¬(smi > 0.8 ∨ rain > 2) ∧ ¬(smi > 0.5))) ∧
    gonogo 1.3 0 0 = ⟨"nogo", "Saturo"⟩ ∧
    gonogo 0.3 0 0 = ⟨"go", "Praticabile"⟩ ∧
    gonogo 0.6 0 0 = ⟨"caution", "Umido"⟩ := by
  refine ⟨fun smi rain dd => ?_, ?_, ?_, ?_⟩
  · unfold gonogo
    split_ifs with h1 h2 h3 <;>
      refine ⟨?_, ?_, ?_, ?_⟩ <;>
        simp_all [GoNoGo.mk.injEq]
  all_goals
    unfold gonogo
    norm_num

/-- Claim C3: for every offset, the projected SMI computed inside
`calculate_zone_matrix` and the one computed inside
`project_soil_forecast_smi` both equal the specified replay recurrence
started from the zone's current SMI (drain `drainage_rate·0.15` below
2mm, wet by 0.2 above 10mm, clamp to [0, 2], otherwise unchanged). -/
theorem C3_smi_projection_replay :
    ∀ (smi_now drainage_rate : ℚ) (rain : ℕ → ℚ) (offset : ℕ),
      zoneMatrixSmiProj smi_now drainage_rate rain offset
        = specProjectedSMI smi_now drainage_rate rain offset ∧
      projectSoilForecastSmiProj smi_now drainage_rate rain offset
        = specProjectedSMI smi_now drainage_rate rain offset := by
  intro smi_now drainage_rate rain offset
  induction offset with
  | zero => exact ⟨rfl, rfl⟩
  | succ d ih =>
    obtain ⟨ih1, ih2⟩ := ih
    constructor
    · rw [zoneMatrixSmiProj, List.range_succ, List.foldl_append, ← zoneMatrixSmiProj, ih1]
      simp [specProjectedSMI, smiDayUpdate]
    · rw [projectSoilForecastSmiProj, List.range_succ, List.foldl_append,
        ← projectSoilForecastSmiProj, ih2]
      simp [specProjectedSMI, smiDayUpdate]

lemma dryRun_eq_takeWhile (l : List (Option ℚ)) :
    dryRun l = (l.takeWhile isDryDay).length := by
  induction l with
  | nil => rfl
  | cons p rest ih =>
    cases p with
    | none => simp [dryRun, List.takeWhile_cons, isDryDay, ih]
    | some v =>
      by_cases hv : v < 2.0 <;>
        simp [dryRun, List.takeWhile_cons, isDryDay, hv, ih]

/-- Claim C5: for every non-empty daily precipitation sequence,
`dry_days` is the length of the maximal suffix (counted from the most
recent entry backward) of entries that are `None` or `< 2.0` mm, stopping
at the first entry `≥ 2` mm; and on `[20, 0, 0, 0, 0, 0, 0]` (most recent
last) it returns 6. -/
theorem C5_dry_days_consecutive :
    (∀ h : DailyHistory, h.precipitation_sum ≠ [] →
      ∃ sd, calculate_soil_dryness h = some sd ∧
        sd.dry_days = (h.precipitation_sum.reverse.takeWhile isDryDay).length) ∧
    ∃ sd, calculate_soil_dryness
        ⟨[some 20, some 0, some 0, some 0, some 0, some 0, some 0]⟩ = some sd ∧
      sd.dry_days = 6 := by
  constructor
  · intro h hne
    unfold calculate_soil_dryness
    rw [if_neg hne]
    exact ⟨_, rfl, dryRun_eq_takeWhile _⟩
  · exact ⟨_, rfl, by norm_num [calculate_soil_dryness, dryRun]⟩

/-- Claim C6: the soil-dryness rating is given by strict upper bounds on
the look-back rain sum — 5/15/35 in the 7-day variant, 4/12/28 in the
5-day variant — and a sum of exactly 5.0 rates "damp", not "dry". -/
theorem C6_soil_rating_thresholds :
    (∀ (h : DailyHistory) (sd : SoilDryness), calculate_soil_dryness h = some sd →
      (sd.rating = "dry" ↔ sd.rain_7d < 5) ∧
      (sd.rating = "damp" ↔ 5 ≤ sd.rain_7d ∧ sd.rain_7d < 15) ∧
      (sd.rating = "wet" ↔ 15 ≤ sd.rain_7d ∧ sd.rain_7d < 35) ∧
      (sd.rating = "saturated" ↔ 35 ≤ sd.rain_7d)) ∧
    (∀ (h : DailyHistory) (sd : SoilDryness), calculate_soil_dryness_5d h = some sd →
      (sd.rating = "dry" ↔ sd.rain_7d < 4) ∧
      (sd.rating = "damp" ↔ 4 ≤ sd.rain_7d ∧ sd.rain_7d < 12) ∧
      (sd.rating = "wet" ↔ 12 ≤ sd.rain_7d ∧ sd.rain_7d < 28) ∧
      (sd.rating = "saturated" ↔ 28 ≤ sd.rain_7d)) ∧
    (∃ sd, calculate_soil_dryness ⟨[some 5]⟩ = some sd ∧
      sd.rain_7d = 5 ∧ sd.rating = "damp") := by
  refine ⟨?_, ?_, ?_⟩
  · intro h sd hsd
    unfold calculate_soil_dryness at hsd
    by_cases hne : h.precipitation_sum = []
    · simp [hne] at hsd
    · rw [if_neg hne, Option.some_inj] at hsd
      subst hsd
      split_ifs with h1 h2 h3
      · exact ⟨iff_of_true rfl h1,
          iff_of_false (by simp) (by rintro ⟨a, _⟩; linarith),
          iff_of_false (by simp) (by rintro ⟨a, _⟩; linarith),
          iff_of_false (by simp) (by intro a; linarith)⟩
      · exact ⟨iff_of_false (by simp) h1,
          iff_of_true rfl ⟨not_lt.mp h1, h2⟩,
          iff_of_false (by simp) (by rintro ⟨a, _⟩; linarith),
          iff_of_false (by simp) (by intro a; linarith)⟩
      · exact ⟨iff_of_false (by simp) h1,
          iff_of_false (by simp) (by rintro ⟨_, b⟩; exact h2 b),
          iff_of_true rfl ⟨not_lt.mp h2, h3⟩,
          iff_of_false (by simp) (by intro a; linarith)⟩
      · exact ⟨iff_of_false (by simp) h1,
          iff_of_false (by simp) (by rintro ⟨_, b⟩; exact h2 b),
          iff_of_false (by simp) (by rintro ⟨_, b⟩; exact h3 b),
          iff_of_true rfl (not_lt.mp h3)⟩
  · intro h sd hsd
    unfold calculate_soil_dryness_5d at hsd
    by_cases hne : h.precipitation_sum = []
    · simp [hne] at hsd
    · rw [if_neg hne, Option.some_inj] at hsd
      subst hsd
      split_ifs with h1 h2 h3
      · exact ⟨iff_of_true rfl h1,
          iff_of_false (by simp) (by rintro ⟨a, _⟩; linarith),
          iff_of_false (by simp) (by rintro ⟨a, _⟩; linarith),
          iff_of_false (by simp) (by intro a; linarith)⟩
      · exact ⟨iff_of_false (by simp) h1,
          iff_of_true rfl ⟨not_lt.mp h1, h2⟩,
          iff_of_false (by simp) (by rintro ⟨a, _⟩; linarith),
          iff_of_false (by simp) (by intro a; linarith)⟩
      · exact ⟨iff_of_false (by simp) h1,
          iff_of_false (by simp) (by rintro ⟨_, b⟩; exact h2 b),
          iff_of_true rfl ⟨not_lt.mp h2, h3⟩,
          iff_of_false (by simp) (by intro a; linarith)⟩
      · exact ⟨iff_of_false (by simp) h1,
          iff_of_false (by simp) (by rintro ⟨_, b⟩; exact h2 b),
          iff_of_false (by simp) (by rintro ⟨_, b⟩; exact h3 b),
          iff_of_true rfl (not_lt.mp h3)⟩
  · exact ⟨_, rfl,
      by norm_num [calculate_soil_dryness, sumSome, List.filterMap_cons, List.filterMap_nil, id],
      by norm_num [calculate_soil_dryness, sumSome, List.filterMap_cons, List.filterMap_nil, id]⟩

/-- Witness for C5 at the one-day history `[0mm]`. -/
theorem C5_witness :
    ((⟨[some 0]⟩ : DailyHistory).precipitation_sum ≠ []) ∧
    (∃ sd, calculate_soil_dryness ⟨[some 0]⟩ = some sd ∧
      sd.dry_days =
        ((⟨[some 0]⟩ : DailyHistory).precipitation_sum.reverse.takeWhile isDryDay).length) :=
  ⟨by simp, C5_dry_days_consecutive.1 ⟨[some 0]⟩ (by simp)⟩

/-- Witness for C6 at the one-day history `[10mm]`, rated "damp". -/
theorem C6_witness :
    ((SoilDryness.mk 0 10 "damp").rating = "dry" ↔ (SoilDryness.mk 0 10 "damp").rain_7d < 5) ∧
    ((SoilDryness.mk 0 10 "damp").rating = "damp" ↔
      5 ≤ (SoilDryness.mk 0 10 "damp").rain_7d ∧ (SoilDryness.mk 0 10 "damp").rain_7d < 15) ∧
    ((SoilDryness.mk 0 10 "damp").rating = "wet" ↔
      15 ≤ (SoilDryness.mk 0 10 "damp").rain_7d ∧ (SoilDryness.mk 0 10 "damp").rain_7d < 35) ∧
    ((SoilDryness.mk 0 10 "damp").rating = "saturated" ↔
      35 ≤ (SoilDryness.mk 0 10 "damp").rain_7d) :=
  C6_soil_rating_thresholds.1 ⟨[some 10]⟩ ⟨0, 10, "damp"⟩
    (by norm_num [calculate_soil_dryness, dryRun, sumSome,
      List.filterMap_cons, List.filterMap_nil, id])

lemma recoveryLoop_le (daily : ℚ) :
    ∀ (fuel : ℕ) (current : ℚ) (days : ℕ), days ≤ 30 →
      recoveryLoop daily fuel current days ≤ 30 := by
  intro fuel
  induction fuel with
  | zero => intro current days h; exact h
  | succ f ih =>
    intro current days h
    rw [recoveryLoop]
    split_ifs with hc
    · exact ih _ _ (by omega)
    · exact h

lemma recoveryLoop_ge (daily : ℚ) :
    ∀ (fuel : ℕ) (current : ℚ) (days : ℕ),
      days ≤ recoveryLoop daily fuel current days := by
  intro fuel
  induction fuel with
  | zero => intro current days; exact le_refl _
  | succ f ih =>
    intro current days
    rw [recoveryLoop]
    split_ifs with hc
    · exact le_trans (by omega) (ih (current - daily) (days + 1))
    · exact le_refl _

lemma recoveryLoop_min (daily : ℚ) :
    ∀ (fuel : ℕ) (current : ℚ) (days k : ℕ), days ≤ k →
      k < recoveryLoop daily fuel current days →
      0.5 < current - ((k - days : ℕ) : ℚ) * daily := by
  intro fuel
  induction fuel with
  | zero =>
    intro current days k hdk hk
    rw [recoveryLoop] at hk
    omega
  | succ f ih =>
    intro current days k hdk hk
    rw [recoveryLoop] at hk
    split_ifs at hk with hc
    · rcases eq_or_lt_of_le hdk with rfl | hlt
      · simpa using hc.1
      · have hk' := ih (current - daily) (days + 1) k (by omega) hk
        have hsub : k - days = (k - (days + 1)) + 1 := by omega
        rw [hsub]
        push_cast
        linarith
    · omega

lemma recoveryLoop_reach (daily : ℚ) :
    ∀ (fuel : ℕ) (current : ℚ) (days : ℕ), 30 ≤ days + fuel →
      recoveryLoop daily fuel current days < 30 →
      current - ((recoveryLoop daily fuel current days - days : ℕ) : ℚ) * daily ≤ 0.5 := by
  intro fuel
  induction fuel with
  | zero =>
    intro current days hf hr
    rw [recoveryLoop] at hr ⊢
    omega
  | succ f ih =>
    intro current days hf hr
    rw [recoveryLoop] at hr ⊢
    split_ifs at hr ⊢ with hc
    · have hge := recoveryLoop_ge daily f (current - daily) (days + 1)
      have h' := ih (current - daily) (days + 1) (by omega) hr
      have hsub : recoveryLoop daily f (current - daily) (days + 1) - days
          = (recoveryLoop daily f (current - daily) (days + 1) - (days + 1)) + 1 := by omega
      rw [hsub]
      push_cast
      linarith
    · have : ¬ 0.5 < current := by
        intro h05
        exact hc ⟨h05, by omega⟩
      simpa using le_of_not_lt this

unseal Rat.add Rat.sub Rat.mul Rat.inv Rat.ofScientific in
/-- Claim C7: `estimate_recovery_days` returns 0 when `smi ≤ 0.5`,
otherwise it returns the number of `smi -= drainage_rate*0.15` iterations
needed to reach `smi ≤ 0.5`, capped at the literal 30 (minimality below
the result, threshold reached at the result unless the cap fired); in
particular it is 0 at `smi = 0.5` for every rate, and 30 at
`(smi, rate) = (10, 0.01)`. -/
theorem C7_recovery_days :
    (∀ smi drainage_rate : ℚ,
      (smi ≤ 0.5 → estimate_recovery_days smi drainage_rate = 0) ∧
      (0.5 < smi →
        estimate_recovery_days smi drainage_rate ≤ 30 ∧
        (∀ k < estimate_recovery_days smi drainage_rate,
          0.5 < smi - (k : ℚ) * (drainage_rate * 0.15)) ∧
        (estimate_recovery_days smi drainage_rate < 30 →
          smi - (estimate_recovery_days smi drainage_rate : ℚ) * (drainage_rate * 0.15) ≤ 0.5))) ∧
    (∀ r : ℚ, estimate_recovery_days 0.5 r = 0) ∧
    estimate_recovery_days 10 0.01 = 30 := by
  refine ⟨fun smi drainage_rate => ⟨fun hle => ?_, fun hgt => ?_⟩, fun r => ?_, ?_⟩
  · rw [estimate_recovery_days, if_pos hle]
  · rw [estimate_recovery_days, if_neg (not_le.mpr hgt)]
    refine ⟨recoveryLoop_le _ 30 smi 0 (by omega), fun k hk => ?_, fun hcap => ?_⟩
    · simpa using recoveryLoop_min (drainage_rate * 0.15) 30 smi 0 k (Nat.zero_le k) hk
    · simpa using recoveryLoop_reach (drainage_rate * 0.15) 30 smi 0 (by omega) hcap
  · rw [estimate_recovery_days, if_pos le_rfl]
  · decide

unseal Rat.ofScientific in
/-- Witness for C7 at `smi = 1`, `drainage_rate = 1`. -/
theorem C7_witness :
    (0.5 : ℚ) < 1 ∧ estimate_recovery_days 1 1 ≤ 30 :=
  ⟨by norm_num, ((C7_recovery_days.1 1 1).2 (by norm_num)).1⟩

lemma score_sub_ite (x a b : ℤ) (c d : Prop) [Decidable c] [Decidable d] :
    (if c then x - a else if d then x - b else x)
      = x - (if c then a else if d then b else 0) := by
  split_ifs <;> ring

lemma trailScore_eq_penalties (rain t w g : ℚ) :
    trailScore rain t w g
      = 100 - specRainPenalty rain - specWindPenalty w
        - specGustPenalty g - specTempPenalty t := by
  unfold trailScore specRainPenalty specWindPenalty specGustPenalty specTempPenalty
  split_ifs <;> ring

lemma trailRating_bands (s : ℤ) :
    (trailRating s = "excellent" ↔ 80 ≤ s) ∧
    (trailRating s = "good" ↔ 60 ≤ s ∧ s < 80) ∧
    (trailRating s = "poor" ↔ s < 60) := by
  unfold trailRating
  split_ifs with hs1 hs2
  · exact ⟨iff_of_true rfl hs1,
      iff_of_false (by simp) (fun h => lt_irrefl _ (lt_of_lt_of_le h.2 hs1)),
      iff_of_false (by simp) (fun h => lt_irrefl _ (lt_of_lt_of_le h (le_trans (by norm_num) hs1)))⟩
  · exact ⟨iff_of_false (by simp) hs1,
      iff_of_true rfl ⟨hs2, lt_of_not_ge hs1⟩,
      iff_of_false (by simp) (fun h => lt_irrefl _ (lt_of_lt_of_le h hs2))⟩
  · exact ⟨iff_of_false (by simp) hs1,
      iff_of_false (by simp) (fun h => hs2 h.1),
      iff_of_true rfl (lt_of_not_ge hs2)⟩

/-- Claim C4: whenever the current-hour reads succeed (each of the
temperature, wind and gust arrays is non-empty, which is what acceptance
means for this function), the returned score is 100 minus the four
independent penalties of the claim, computed from the 24h rain sum (0
when fewer than 24 samples); the rating bands are
`excellent ↔ score ≥ 80`, `good ↔ 60 ≤ score < 80`, `poor ↔ score < 60`;
and no lower clamp exists: a concrete input yields a negative score. -/
theorem C4_trail_conditions_score :
    (∀ (hd : HourlyData) (t w g : ℚ),
      hd.temperature_2m.head? = some t →
      hd.windspeed_10m.head? = some w →
      hd.windgusts_10m.head? = some g →
      ∃ r, calculate_trail_conditions hd = some r ∧
        r.score = 100 - specRainPenalty (specRain24 hd) - specWindPenalty w
          - specGustPenalty g - specTempPenalty t ∧
        r.rain_24h = specRain24 hd ∧
        (r.rating = "excellent" ↔ 80 ≤ r.score) ∧
        (r.rating = "good" ↔ 60 ≤ r.score ∧ r.score < 80) ∧
        (r.rating = "poor" ↔ r.score < 60)) ∧
    (∃ hd r, calculate_trail_conditions hd = some r ∧ r.score < 0) := by
  constructor
  · intro hd t w g ht hw hg
    obtain ⟨time, temps, precs, winds, gusts, codes⟩ := hd
    cases temps with
    | nil => simp at ht
    | cons a ts =>
    cases winds with
    | nil => simp at hw
    | cons b bs =>
    cases gusts with
    | nil => simp at hg
    | cons c cs =>
    obtain rfl : a = t := by simpa using ht
    obtain rfl : b = w := by simpa using hw
    obtain rfl : c = g := by simpa using hg
    refine ⟨_, rfl, trailScore_eq_penalties _ _ _ _, rfl,
      (trailRating_bands _).1, (trailRating_bands _).2.1, (trailRating_bands _).2.2⟩
  · refine ⟨hdNeg, ⟨-20, "poor", 24, 35, 45⟩, ?_, by norm_num⟩
    have hsum : (List.replicate 24 (1:ℚ)).sum = 24 := by
      rw [List.sum_replicate, nsmul_eq_mul]; norm_num
    norm_num [calculate_trail_conditions, trailScore, trailRating, hdNeg, hsum]

/-- Witness for C4: a benign series (temp 10, wind 5, gust 7) is accepted. -/
theorem C4_witness :
    calculate_trail_conditions ⟨[], [10], [1], [5], [7], []⟩ ≠ none := by
  obtain ⟨r, hr, -, -, -, -, -⟩ :=
    C4_trail_conditions_score.1 ⟨[], [10], [1], [5], [7], []⟩ 10 5 7 rfl rfl rfl
  simp [hr]

/-- Counterexample to C10 as stated: on the all-empty hourly series the
current-hour reads fail — the source raises `IndexError` (modelled as
`none`) instead of returning a defaulted result. -/
theorem C10_counterexample_empty_raises :
    calculate_trail_conditions ⟨[], [], [], [], [], []⟩ = none := rfl

/-- Claim C10 (amended): short or missing precipitation data is tolerated
— the 24-hour rain sum defaults to 0 whenever fewer than 24 precipitation
samples exist and a result is still returned — provided the three
current-hour arrays (temperature, wind, gust) are non-empty; when one of
them is empty the indexing `[0]` raises instead of defaulting. -/
theorem C10_short_precipitation_defaults :
    ∀ hd : HourlyData,
      hd.temperature_2m ≠ [] → hd.windspeed_10m ≠ [] → hd.windgusts_10m ≠ [] →
      ∃ r, calculate_trail_conditions hd = some r ∧
        (hd.precipitation.length < 24 → r.rain_24h = 0) := by
  intro hd ht hw hg
  obtain ⟨time, temps, precs, winds, gusts, codes⟩ := hd
  obtain ⟨a, ts, rfl⟩ := List.exists_cons_of_ne_nil ht
  obtain ⟨b, bs, rfl⟩ := List.exists_cons_of_ne_nil hw
  obtain ⟨c, cs, rfl⟩ := List.exists_cons_of_ne_nil hg
  refine ⟨_, rfl, fun hlen => ?_⟩
  have hlen2 : precs.length < 24 := hlen
  show (if 24 ≤ precs.length then (precs.take 24).sum else 0) = 0
  rw [if_neg (not_le.mpr hlen2)]

/-- Witness for C10 at a series with an empty precipitation array. -/
theorem C10_witness :
    (calculate_trail_conditions ⟨[], [2], [], [3], [4], []⟩).isSome = true := by
  obtain ⟨r, hr, -⟩ :=
    C10_short_precipitation_defaults ⟨[], [2], [], [3], [4], []⟩ (by simp) (by simp) (by simp)
  simp [hr]

/-- Claim C8: `adjust_windows_for_soil` acts only on a `saturated` or
`wet` base soil rating — for a `damp` or `dry` rating it returns the
windows list unchanged — and, when it acts, the per-day cap maps an
effective level of `saturated` to rating "poor", `wet` to the distinct
tier "medium", `damp` downgrades only an "excellent" rating to "good",
and a `dry` effective level leaves the window unchanged. -/
theorem C8_adjust_windows_frame_and_cap :
    (∀ (now : Timestamp) (windows : List DailyWindow) (sd : SoilDryness)
        (hourly : Option HourlyData),
      sd.rating = "damp" ∨ sd.rating = "dry" →
      adjust_windows_for_soil now windows (some sd) hourly = windows) ∧
    (∀ w : DailyWindow,
      (applyLevelCap "saturated" w).rating = "poor" ∧
      (applyLevelCap "wet" w).rating = "medium" ∧
      (applyLevelCap "damp" w =
        if w.rating = "excellent"
        then { w with rating := "good", rating_icon := "🟡" } else w) ∧
      applyLevelCap "dry" w = w) := by
  constructor
  · intro now windows sd hourly hr
    have hnot : ¬(sd.rating = "saturated" ∨ sd.rating = "wet") := by
      rcases hr with h | h <;> rw [h] <;> simp
    simp [adjust_windows_for_soil, hnot]
  · intro w
    refine ⟨?_, ?_, ?_, ?_⟩ <;> simp [applyLevelCap]

/-- Witness for C8: with a "damp" base soil rating the adjuster returns
the window list unchanged. -/
theorem C8_witness :
    ((SoilDryness.mk 3 1 "damp").rating = "damp" ∨ (SoilDryness.mk 3 1 "damp").rating = "dry") ∧
    adjust_windows_for_soil ⟨0, 0, 0⟩ [w0] (some ⟨3, 1, "damp"⟩) none = [w0] :=
  ⟨Or.inl rfl,
    C8_adjust_windows_frame_and_cap.1 ⟨0, 0, 0⟩ [w0] ⟨3, 1, "damp"⟩ none (Or.inl rfl)⟩

lemma searchStep_of_le (hours : List HourEntry) (acc : Option BestWindow × ℚ) (c : ℕ × ℕ)
    (h : avgScoreAt hours c ≤ acc.2) : searchStep hours acc c = acc := by
  rw [searchStep, if_neg (not_lt.mpr h)]

lemma foldl_searchStep_keep (hours : List HourEntry) (L : List (ℕ × ℕ))
    (acc : Option BestWindow × ℚ) (h : ∀ c ∈ L, avgScoreAt hours c ≤ acc.2) :
    L.foldl (searchStep hours) acc = acc := by
  induction L with
  | nil => rfl
  | cons c L ih =>
    rw [List.foldl_cons, searchStep_of_le hours acc c (h c (List.mem_cons_self c L))]
    exact ih fun d hd => h d (List.mem_cons_of_mem c hd)

lemma searchStep_snd (hours : List HourEntry) (acc : Option BestWindow × ℚ) (c : ℕ × ℕ) :
    (searchStep hours acc c).2 = acc.2 ∨ (searchStep hours acc c).2 = avgScoreAt hours c := by
  rw [searchStep]; split_ifs <;> simp

lemma foldl_searchStep_snd_lt (hours : List HourEntry) (L : List (ℕ × ℕ)) (M : ℚ) :
    ∀ acc : Option BestWindow × ℚ, (∀ c ∈ L, avgScoreAt hours c < M) → acc.2 < M →
      (L.foldl (searchStep hours) acc).2 < M := by
  induction L with
  | nil => intro acc _ hacc; exact hacc
  | cons c L ih =>
    intro acc hL hacc
    rw [List.foldl_cons]
    refine ih _ (fun d hd => hL d (List.mem_cons_of_mem c hd)) ?_
    rcases searchStep_snd hours acc c with h | h <;> rw [h]
    · exact hacc
    · exact hL c (List.mem_cons_self c L)

lemma mem_of_mem_windowAt (hours : List HourEntry) (c : ℕ × ℕ) (x : HourEntry)
    (h : x ∈ windowAt hours c) : x ∈ hours :=
  List.mem_of_mem_drop (List.mem_of_mem_take h)

lemma length_windowAt (hours : List HourEntry) (ws s : ℕ) (h : s + ws ≤ hours.length) :
    (windowAt hours (ws, s)).length = ws := by
  simp only [windowAt, List.length_take, List.length_drop]
  omega

lemma avgScoreAt_le (hours : List HourEntry) (c : ℕ × ℕ) (h1 : 0 < c.1)
    (hub : ∀ x ∈ hours, x.score ≤ 100) : avgScoreAt hours c ≤ 100 := by
  rw [avgScoreAt, div_le_iff₀ (by exact_mod_cast h1 : (0:ℚ) < (c.1 : ℚ))]
  have hsum : ((windowAt hours c).map (·.score)).sum
      ≤ (((windowAt hours c).map (·.score)).length) • (100:ℤ) := by
    refine List.sum_le_card_nsmul _ _ ?_
    intro y hy
    obtain ⟨x, hx, rfl⟩ := List.mem_map.mp hy
    exact hub x (mem_of_mem_windowAt hours c x hx)
  have hlen : ((windowAt hours c).map (·.score)).length ≤ c.1 := by
    rw [List.length_map, windowAt, List.length_take]
    exact min_le_left _ _
  set S : ℤ := ((windowAt hours c).map (·.score)).sum with hS
  have hZ : S ≤ 100 * (c.1 : ℤ) := by
    rw [nsmul_eq_mul] at hsum
    have hcast : (((windowAt hours c).map (·.score)).length : ℤ) ≤ (c.1 : ℤ) := by
      exact_mod_cast hlen
    nlinarith
  exact_mod_cast hZ

lemma avgScoreAt_lt (hours : List HourEntry) (ws s : ℕ) (hws : 0 < ws)
    (hlen : s + ws ≤ hours.length) (hub : ∀ x ∈ hours, x.score ≤ 100)
    (hlow : ∃ x ∈ windowAt hours (ws, s), x.score ≤ 50) :
    avgScoreAt hours (ws, s) < 100 := by
  obtain ⟨x, hxmem, hx50⟩ := hlow
  rw [avgScoreAt, div_lt_iff₀ (by exact_mod_cast hws : (0:ℚ) < (((ws, s) : ℕ × ℕ).1 : ℚ))]
  have hmap : x.score ∈ (windowAt hours (ws, s)).map (·.score) :=
    List.mem_map_of_mem _ hxmem
  obtain ⟨u, v, huv⟩ := List.append_of_mem hmap
  have hall : ∀ y ∈ (windowAt hours (ws, s)).map (·.score), y ≤ (100:ℤ) := by
    intro y hy
    obtain ⟨z, hz, rfl⟩ := List.mem_map.mp hy
    exact hub z (mem_of_mem_windowAt _ _ _ hz)
  have hu : u.sum ≤ u.length • (100:ℤ) :=
    List.sum_le_card_nsmul _ _ fun y hy =>
      hall y (by rw [huv]; exact List.mem_append_left _ hy)
  have hv : v.sum ≤ v.length • (100:ℤ) :=
    List.sum_le_card_nsmul _ _ fun y hy =>
      hall y (by rw [huv]; exact List.mem_append_right _ (List.mem_cons_of_mem _ hy))
  have hlen6 : ((windowAt hours (ws, s)).map (·.score)).length = ws := by
    rw [List.length_map, length_windowAt hours ws s hlen]
  have hlen2 : u.length + 1 + v.length = ws := by
    rw [huv] at hlen6
    simp at hlen6
    omega
  have hsum : ((windowAt hours (ws, s)).map (·.score)).sum = u.sum + (x.score + v.sum) := by
    rw [huv, List.sum_append, List.sum_cons]
  rw [hsum]
  rw [nsmul_eq_mul] at hu hv
  have hZ : u.sum + (x.score + v.sum) < 100 * (ws:ℤ) := by
    have hws' : (ws:ℤ) = (u.length:ℤ) + 1 + (v.length:ℤ) := by exact_mod_cast hlen2.symm
    rw [hws']
    ring_nf
    ring_nf at hu hv
    linarith
  have hfst : (((ws, s) : ℕ × ℕ)).1 = ws := rfl
  rw [hfst]
  set T : ℤ := u.sum + (x.score + v.sum) with hT
  exact_mod_cast hZ

lemma windowAt_block (pre block post : List HourEntry) (hlen : block.length = 6) :
    windowAt (pre ++ block ++ post) (6, pre.length) = block := by
  show ((pre ++ block ++ post).drop pre.length).take 6 = block
  rw [List.append_assoc, List.drop_left, ← hlen, List.take_left]

lemma avgScoreAt_block (pre block post : List HourEntry) (hlen : block.length = 6)
    (hsc : ∀ x ∈ block, x.score = 100) :
    avgScoreAt (pre ++ block ++ post) (6, pre.length) = 100 := by
  rw [avgScoreAt, windowAt_block pre block post hlen]
  have hsum : (block.map (·.score)).sum = (block.map (·.score)).length • (100:ℤ) := by
    refine List.sum_eq_card_nsmul _ _ ?_
    intro y hy
    obtain ⟨z, hz, rfl⟩ := List.mem_map.mp hy
    exact hsc z hz
  rw [hsum, List.length_map, hlen, nsmul_eq_mul]
  norm_num

lemma low_elem_in_window (pre block post : List HourEntry) (s : ℕ) (hs : s < pre.length)
    (hout : ∀ x ∈ pre ++ post, x.score ≤ 50) :
    ∃ x ∈ windowAt (pre ++ block ++ post) (6, s), x.score ≤ 50 := by
  have hget : (pre ++ block ++ post)[s]? = some pre[s] := by
    rw [List.append_assoc, List.getElem?_append, if_pos hs, List.getElem?_eq_getElem hs]
  refine ⟨pre[s], ?_, hout _ (List.mem_append_left post (List.getElem_mem hs))⟩
  have hw0 : (windowAt (pre ++ block ++ post) (6, s))[0]? = some pre[s] := by
    show (((pre ++ block ++ post).drop s).take 6)[0]? = some pre[s]
    rw [List.getElem?_take, if_pos (by norm_num), List.getElem?_drop]
    simpa using hget
  obtain ⟨hlt, heq⟩ := List.getElem?_eq_some.mp hw0
  rw [← heq]
  exact List.getElem_mem hlt

set_option maxHeartbeats 1000000 in
lemma searchDay_unique_block (pre block post : List HourEntry)
    (hlen : block.length = 6)
    (hbl : ∀ x ∈ block, x.score = 100)
    (hout : ∀ x ∈ pre ++ post, x.score ≤ 50) :
    searchDay (pre ++ block ++ post) = (some (mkBestWindow block 6), 100) := by
  have hub : ∀ x ∈ pre ++ block ++ post, x.score ≤ 100 := by
    intro x hx
    rcases List.mem_append.mp hx with hx1 | hpost
    · rcases List.mem_append.mp hx1 with hpre | hblock
      · exact le_trans (hout x (List.mem_append_left _ hpre)) (by norm_num)
      · exact le_of_eq (hbl x hblock)
    · exact le_trans (hout x (List.mem_append_right _ hpost)) (by norm_num)
  have hnval : (pre ++ block ++ post).length = pre.length + 6 + post.length := by
    simp [hlen]
    omega
  have h6 : (pre ++ block ++ post).length + 1 - 6 = pre.length + (post.length + 1) := by
    omega
  rw [searchDay, searchCands]
  simp only [List.flatMap_cons, List.flatMap_nil, List.append_nil]
  rw [h6, List.range_add, List.range_succ_eq_map]
  simp only [List.map_append, List.map_cons, List.map_map, List.foldl_append,
    List.foldl_cons, Nat.add_zero]
  have hle100 : ∀ (ws s : ℕ), 0 < ws →
      avgScoreAt (pre ++ block ++ post) (ws, s) ≤ 100 :=
    fun ws s h => avgScoreAt_le (pre ++ block ++ post) (ws, s) h hub
  have hA : (List.foldl (searchStep (pre ++ block ++ post)) (none, 0)
      ((List.range pre.length).map fun s => ((6:ℕ), s))).2 < 100 := by
    refine foldl_searchStep_snd_lt (pre ++ block ++ post) _ 100 _ ?_ (by norm_num)
    intro c hc
    obtain ⟨t, ht, rfl⟩ := List.mem_map.mp hc
    have hts : t < pre.length := List.mem_range.mp ht
    refine avgScoreAt_lt (pre ++ block ++ post) 6 t (by norm_num) (by omega) hub ?_
    exact low_elem_in_window pre block post t hts hout
  have hstep : searchStep (pre ++ block ++ post)
      (List.foldl (searchStep (pre ++ block ++ post)) (none, 0)
        ((List.range pre.length).map fun s => ((6:ℕ), s)))
      (6, pre.length)
      = (some (mkBestWindow block 6), 100) := by
    rw [searchStep, avgScoreAt_block pre block post hlen hbl,
      windowAt_block pre block post hlen, if_pos hA]
  rw [hstep]
  rw [foldl_searchStep_keep (pre ++ block ++ post)
    (List.map ((fun s => ((6:ℕ), s)) ∘ (fun x => pre.length + x) ∘ Nat.succ)
      (List.range post.length))
    (some (mkBestWindow block 6), 100) (by
      intro c hc
      obtain ⟨t, ht, rfl⟩ := List.mem_map.mp hc
      exact hle100 6 _ (by norm_num))]
  rw [foldl_searchStep_keep (pre ++ block ++ post)
    ((List.range ((pre ++ block ++ post).length + 1 - 5)).map fun s => ((5:ℕ), s))
    (some (mkBestWindow block 6), 100) (by
      intro c hc
      obtain ⟨t, ht, rfl⟩ := List.mem_map.mp hc
      exact hle100 5 _ (by norm_num))]
  rw [foldl_searchStep_keep (pre ++ block ++ post)
    ((List.range ((pre ++ block ++ post).length + 1 - 4)).map fun s => ((4:ℕ), s))
    (some (mkBestWindow block 6), 100) (by
      intro c hc
      obtain ⟨t, ht, rfl⟩ := List.mem_map.mp hc
      exact hle100 4 _ (by norm_num))]

unseal Rat.add Rat.sub Rat.mul Rat.inv Rat.ofScientific in
set_option maxRecDepth 8000 in
lemma find_best_at_clock0 : find_best_riding_windows ⟨0, 0, 0⟩ hd0 = [w0] := by decide

unseal Rat.add Rat.sub Rat.mul Rat.inv Rat.ofScientific in
set_option maxRecDepth 8000 in
lemma find_best_at_clock3 : find_best_riding_windows ⟨3, 0, 0⟩ hd0 = [] := by decide

/-- Claim C1: the best-window search tries window sizes 6, 5, 4 in that
order with ascending start offsets (the enumeration in `searchCands`),
replaces the incumbent only on a strictly greater mean (an equal mean
never replaces it — first conjunct); rain caps a per-hour score at 50 and
every per-hour score is at most 100 (second and third conjuncts); hence
for any day whose eligible hours are a unique contiguous 6-hour block of
score 100 surrounded by hours scoring at most 50 (rain), the selected
window is exactly that block with mean 100 (fourth conjunct), and on a
concrete hourly series with rain in all other daytime hours the emitted
window is exactly the 6-hour block (fifth conjunct). -/
theorem C1_window_selection :
    (∀ (hours : List HourEntry) (acc : Option BestWindow × ℚ) (c : ℕ × ℕ),
      avgScoreAt hours c = acc.2 → searchStep hours acc c = acc) ∧
    (∀ (hd : HourlyData) (i : ℕ), 0.5 < hd.precipitation.getD i 0 →
      hourScoreAt hd i ≤ 50) ∧
    (∀ (hd : HourlyData) (i : ℕ), hourScoreAt hd i ≤ 100) ∧
    (∀ pre block post : List HourEntry, block.length = 6 →
      (∀ x ∈ block, x.score = 100) → (∀ x ∈ pre ++ post, x.score ≤ 50) →
      searchDay (pre ++ block ++ post) = (some (mkBestWindow block 6), 100)) ∧
    find_best_riding_windows ⟨0, 0, 0⟩ hd0 = [w0] := by
  refine ⟨?_, ?_, ?_, searchDay_unique_block, find_best_at_clock0⟩
  · intro hours acc c h
    exact searchStep_of_le hours acc c (le_of_eq h)
  · intro hd i h
    simp only [hourScoreAt]
    rw [if_pos h]
    split_ifs <;> omega
  · intro hd i
    simp only [hourScoreAt]
    split_ifs <;> omega

/-- Witness for C1: the fourth conjunct applied to the concrete day made
of two rainy hours followed by a clean 6-hour block. -/
theorem C1_witness :
    searchDay ([entry 0 9 50 1, entry 0 10 50 1]
        ++ [entry 0 11 100 0, entry 0 12 100 0, entry 0 13 100 0,
            entry 0 14 100 0, entry 0 15 100 0, entry 0 16 100 0] ++ [])
      = (some (mkBestWindow [entry 0 11 100 0, entry 0 12 100 0, entry 0 13 100 0,
          entry 0 14 100 0, entry 0 15 100 0, entry 0 16 100 0] 6), 100) :=
  C1_window_selection.2.2.2.1 _ _ _ (by decide) (by decide) (by decide)

/-- Counterexample to C9 as stated: `find_best_riding_windows` reads
`datetime.now()` from the system clock (src/main.py line 246), so the
same hourly series yields different results at two different clock
readings. -/
theorem C9_counterexample_clock_dependence :
    find_best_riding_windows ⟨0, 0, 0⟩ hd0 ≠ find_best_riding_windows ⟨3, 0, 0⟩ hd0 := by
  rw [find_best_at_clock0, find_best_at_clock3]
  simp

/-- Claim C9 (amended): each core computation is a deterministic function
of its explicit inputs together with the ambient clock reading — for the
riding-window finder the clock reading is an additional input, because
the source reads `datetime.now()` itself rather than receiving "now" as a
parameter, and there is a fixed hourly series whose output differs
between two invocation times. -/
theorem C9_determinism_given_clock :
    (∀ (now : Timestamp) (hd : HourlyData),
      find_best_riding_windows now hd = find_best_riding_windows now hd) ∧
    (∃ (hd : HourlyData) (t₁ t₂ : Timestamp),
      find_best_riding_windows t₁ hd ≠ find_best_riding_windows t₂ hd) := by
  refine ⟨fun now hd => rfl, ⟨hd0, ⟨0, 0, 0⟩, ⟨3, 0, 0⟩, ?_⟩⟩
  rw [find_best_at_clock0, find_best_at_clock3]
  simp

end CastelliWeather
